import Mathlib

/-!
Verification of the NetBox prefix reconciliation module.

This file gives a shallow embedding of the two Python source files
`netbox_utils.py` (lookup-table registry, `find_app`, `find_ids`,
`normalize_data`) and `netbox_prefix.py` (`netbox_create_prefix`,
`netbox_delete_prefix`, `main`) and proves properties about them.

Modelling conventions:
  * Python dicts holding the desired-state record become association
    lists `Record = List (String × Value)` with first-match lookup and
    in-place update (`recSet` keeps the position of an existing key and
    appends a fresh one, like CPython dicts).
  * Nested reference values (the `vlan` / `nat_inside` sub-dicts) are
    string-valued dictionaries `Value.vdict`.
  * The remote pynetbox client is a query capability
    `q : app → endpoint → filters → QueryResult`; `get` returning `None`
    is `notFound`, a unique hit is `found id`, and the `ValueError`
    pynetbox raises on several hits is `multiple`.
  * Raised Python exceptions are `PyErr`; functions that can raise
    return `Except PyErr _` (or the richer `FindRes`, which also keeps
    the source's habit of *returning* exception objects from
    `find_ids` distinct from *raising* them).
  * The mutable prefixes collection of the remote service lives in
    `Store`, together with ghost logs of the probe / create / delete
    calls the reconciler issues, used to state "no write happened".
-/

/-- A Python value as it appears in a desired-state record: a string, an
integer, a nested string-valued dict, a boolean, or Python `None`. -/
inductive Value where
  | str (s : String)
  | num (n : Nat)
  | vdict (entries : List (String × String))
  | bool (b : Bool)
  | pyNone
deriving DecidableEq, Repr

/-- A desired-state record: insertion-ordered association list, unique keys. -/
abbrev Record := List (String × Value)

/-- Python exceptions that the embedded code can raise. -/
inductive PyErr where
  | valueError (msg : String)
  | keyError (key : String)
  | attributeError (msg : String)
  | typeError (msg : String)
  | indexError (msg : String)
  | unboundLocal (name : String)
deriving DecidableEq, Repr

/-- First-match association-list lookup (Python `d.get(k)` / `d[k]`). -/
def alookup {α : Type} : List (String × α) → String → Option α
  | [], _ => Option.none
  | (k', v) :: rest, k => if k' == k then some v else alookup rest k

/-- Python dict assignment `d[k] = v`: updates the value in place when the
key exists (keeping its position) and appends the pair otherwise. -/
def recSet (r : Record) (k : String) (v : Value) : Record :=
  match r with
  | [] => [(k, v)]
  | (k', v') :: rest => if k' == k then (k, v) :: rest else (k', v') :: recSet rest k v

/-- Python `d[k]` on a record, raising `KeyError` when the key is absent. -/
def recItem (r : Record) (k : String) : Except PyErr Value :=
  match alookup r k with
  | some v => Except.ok v
  | Option.none => Except.error (PyErr.keyError k)

/-- Python truthiness of an optional value (`d.get(k)` in a condition):
missing keys and `None` are falsy, strings/dicts are truthy when
non-empty, numbers when non-zero. -/
def pyTruthy : Option Value → Bool
  | Option.none => false
  | some (Value.str s) => s ≠ ""
  | some (Value.num n) => n ≠ 0
  | some (Value.vdict es) => es ≠ []
  | some (Value.bool b) => b
  | some Value.pyNone => false

/-- ASCII lower-casing of one character (Python `str.lower` restricted to
the ASCII range used by the data in this module). -/
def lowerChar (c : Char) : Char :=
  if 65 ≤ c.toNat ∧ c.toNat ≤ 90 then Char.ofNat (c.toNat + 32) else c

/-- Python `s.lower()`. -/
def pyLower (s : String) : String := String.mk (s.data.map lowerChar)

/-- Python `s.replace(" ", "")`. -/
def stripSpaces (s : String) : String := String.mk (s.data.filter (fun c => !(c == ' ')))

/-- Python `s.replace(" ", "-")`. -/
def spaceToHyphen (s : String) : String :=
  String.mk (s.data.map (fun c => if c == ' ' then '-' else c))

/-- Python `c in s` for a single character. -/
def hasChar (s : String) (c : Char) : Bool := s.data.contains c

/-- Python `s.split(sep)` on the character level. -/
def splitChars (l : List Char) (sep : Char) : List (List Char) :=
  match l with
  | [] => [[]]
  | c :: rest =>
    let r := splitChars rest sep
    if c == sep then [] :: r
    else
      match r with
      | h :: t => (c :: h) :: t
      | [] => [[c]]

/-- Python `s.split(sep)` (always returns at least one piece). -/
def pySplit (s : String) (sep : Char) : List String :=
  (splitChars s.data sep).map String.mk

/-- Python `needle in hay` substring test. -/
def strContainsSub (hay needle : String) : Bool :=
  hay.data.tails.any (fun t => needle.data.isPrefixOf t)

/-- Python `str(v)` as used by `"%s" % v` message interpolation. -/
def render : Value → String
  | Value.str s => s
  | Value.num n => toString n
  | Value.vdict es =>
    let sq := String.singleton (Char.ofNat 39)
    let item := fun (p : String × String) => sq ++ p.1 ++ sq ++ ": " ++ sq ++ p.2 ++ sq
    "\x7b" ++ String.intercalate ", " (es.map item) ++ "\x7d"
  | Value.bool b => if b then "True" else "False"
  | Value.pyNone => "None"

/-- `API_APPS_ENDPOINTS` from `netbox_utils.py` (note the `vlan_grups`
entry, sic, in the `ipam` list). -/
def API_APPS_ENDPOINTS : List (String × List String) :=
  [("circuits", []),
   ("dcim", ["device_roles", "device_types", "devices", "interfaces", "platforms",
             "racks", "sites"]),
   ("extras", []),
   ("ipam", ["ip_addresses", "prefixes", "roles", "vlans", "vlan_grups", "vrfs"]),
   ("secrets", []),
   ("tenancy", ["tenants", "tenant_groups"]),
   ("virtualization", ["clusters"])]

/-- `QUERY_TYPES` from `netbox_utils.py`. -/
def QUERY_TYPES : List (String × String) :=
  [("cluster", "name"),
   ("device_role", "slug"),
   ("device_type", "slug"),
   ("manufacturer", "slug"),
   ("nat_inside", "address"),
   ("nat_outside", "address"),
   ("platform", "slug"),
   ("primary_ip", "address"),
   ("primary_ip4", "address"),
   ("primary_ip6", "address"),
   ("rack", "slug"),
   ("region", "slug"),
   ("role", "slug"),
   ("site", "slug"),
   ("tenant", "slug"),
   ("tenant_group", "slug"),
   ("vlan", "name"),
   ("vlan_group", "slug"),
   ("vrf", "name")]

/-- `CONVERT_TO_ID` from `netbox_utils.py`. -/
def CONVERT_TO_ID : List (String × String) :=
  [("cluster", "clusters"),
   ("device_role", "device_roles"),
   ("device_type", "device_types"),
   ("interface", "interfaces"),
   ("nat_inside", "ip_addresses"),
   ("nat_outside", "ip_addresses"),
   ("platform", "platforms"),
   ("primary_ip", "ip_addresses"),
   ("primary_ip4", "ip_addresses"),
   ("primary_ip6", "ip_addresses"),
   ("rack", "racks"),
   ("role", "roles"),
   ("site", "sites"),
   ("tenant", "tenants"),
   ("tenant_group", "tenant_groups"),
   ("vlan", "vlans"),
   ("vlan_group", "vlan_groups"),
   ("vrf", "vrfs")]

/-- `NO_DEFAULT_ID` from `netbox_utils.py`. -/
def NO_DEFAULT_ID : List String :=
  ["primary_ip", "primary_ip4", "primary_ip6", "role", "vlan", "vrf",
   "nat_inside", "nat_outside"]

/-- `PREFIX_STATUS` from `netbox_utils.py`. -/
def PREFIX_STATUS : List (String × Nat) :=
  [("container", 0), ("active", 1), ("reserved", 2), ("deprecated", 3)]

/-- Result of a pynetbox `.get(**filters)` call: no match (`None`),
a unique match carrying the remote numeric id, or the `ValueError`
pynetbox raises when several objects match. -/
inductive QueryResult where
  | found (id : Nat)
  | notFound
  | multiple
deriving DecidableEq, Repr

/-- The read-only query capability of the remote service used by the
resolver: application name, endpoint (collection) name, filters. -/
abbrev QueryFn := String → String → List (String × Value) → QueryResult

/-- `find_app` from `netbox_utils.py`: scans `API_APPS_ENDPOINTS` and
remembers the last application whose endpoint list contains `endpoint`.
When no list contains it the Python variable `nb_app` is never bound and
the function raises `UnboundLocalError`; that is the `Option.none` case. -/
def find_app (endpoint : String) : Option String :=
  API_APPS_ENDPOINTS.foldl
    (fun acc p => if p.2.contains endpoint then some p.1 else acc) Option.none

/-- Message of the `ValueError` pynetbox raises from an un-wrapped `.get`
that matched several objects. -/
def pynetboxMultipleMsg : String := "get() returned more than one result"

/-- Result of `find_ids`: the updated record, a raised exception, or an
exception *object returned as the result* (the `return ValueError(...)` /
`return AttributeError(...)` statements in the source). -/
inductive FindRes where
  | ok (r : Record)
  | raised (e : PyErr)
  | retErr (e : PyErr)
deriving DecidableEq, Repr

/-- Shared tail of every `find_ids` branch: a unique match substitutes the
remote id; zero matches leave fields of `NO_DEFAULT_ID` untouched and
substitute the hard-coded id 1 everywhere else. -/
def applyDefaultId (r : Record) (k : String) (qid : Option Nat) : Record :=
  match qid with
  | some i => recSet r k (Value.num i)
  | Option.none =>
    if NO_DEFAULT_ID.contains k then r else recSet r k (Value.num 1)

/-- Python `v.get(sub)` on a nested dict, with empty strings falsy: returns
the sub-value only when present and non-empty (the truthiness test the
source applies to every `v.get(...)` result). -/
def dGetTruthy (es : List (String × String)) (k : String) : Option String :=
  match alookup es k with
  | some s => if s == "" then Option.none else some s
  | Option.none => Option.none

/-- Python `v[sub]` on a nested dict (`KeyError` when absent). -/
def dItem (es : List (String × String)) (k : String) : Except PyErr String :=
  match alookup es k with
  | some s => Except.ok s
  | Option.none => Except.error (PyErr.keyError k)

/-- One iteration of the `find_ids` loop for the pair `(k, v)`, acting on
the current record `r` (the loop mutates the dict it iterates over, so
`data["vrf"]` inside the `nat_inside` branch reads the current record). -/
def resolveOne (q : QueryFn) (k : String) (v : Value) (r : Record) : FindRes :=
  match alookup CONVERT_TO_ID k with
  | Option.none => FindRes.ok r
  | some endpoint =>
    match find_app endpoint with
    | Option.none => FindRes.raised (PyErr.unboundLocal "nb_app")
    | some app =>
      if k == "interface" then
        match v with
        | Value.vdict es =>
          match dItem es "name" with
          | Except.error e => FindRes.raised e
          | Except.ok nm =>
            match dItem es "device" with
            | Except.error e => FindRes.raised e
            | Except.ok dev =>
              match q app endpoint [("name", Value.str nm), ("device", Value.str dev)] with
              | QueryResult.found i => FindRes.ok (applyDefaultId r k (some i))
              | QueryResult.notFound => FindRes.ok (applyDefaultId r k Option.none)
              | QueryResult.multiple =>
                FindRes.raised (PyErr.valueError pynetboxMultipleMsg)
        | _ => FindRes.raised (PyErr.typeError "value is not subscriptable")
      else if k == "nat_inside" then
        match v with
        | Value.vdict es =>
          match dGetTruthy es "vrf" with
          | some vrfName =>
            match q "ipam" "vrfs" [("name", Value.str vrfName)] with
            | QueryResult.found i =>
              match dItem es "address" with
              | Except.error e => FindRes.raised e
              | Except.ok addr =>
                match q app endpoint [("address", Value.str addr), ("vrf_id", Value.num i)] with
                | QueryResult.found j => FindRes.ok (applyDefaultId r k (some j))
                | QueryResult.notFound => FindRes.ok (applyDefaultId r k Option.none)
                | QueryResult.multiple =>
                  FindRes.raised (PyErr.valueError pynetboxMultipleMsg)
            | QueryResult.multiple =>
              FindRes.raised (PyErr.valueError pynetboxMultipleMsg)
            | QueryResult.notFound =>
              match alookup r "vrf" with
              | some w =>
                FindRes.raised
                  (PyErr.valueError (render w ++ " does not exist - Please create VRF"))
              | Option.none => FindRes.raised (PyErr.keyError "vrf")
          | Option.none =>
            match dItem es "address" with
            | Except.error e => FindRes.raised e
            | Except.ok addr =>
              match q app endpoint [("address", Value.str addr)] with
              | QueryResult.found j => FindRes.ok (applyDefaultId r k (some j))
              | QueryResult.notFound => FindRes.ok (applyDefaultId r k Option.none)
              | QueryResult.multiple =>
                FindRes.raised
                  (PyErr.valueError
                    ("Multiple results found while searching for " ++ k ++ ": " ++ addr
                     ++ " - Specify a VRF within " ++ k))
        | _ => FindRes.raised (PyErr.attributeError "value has no attribute get")
      else if k == "vlan" then
        match v with
        | Value.vdict es =>
          let vd0 : List (String × Value) :=
            match dGetTruthy es "name" with
            | some nm => [("name", Value.str nm)]
            | Option.none => []
          match (match dGetTruthy es "site" with
                 | some st =>
                   match q "dcim" "sites" [("slug", Value.str st)] with
                   | QueryResult.found i => Sum.inl (vd0 ++ [("site_id", Value.num i)])
                   | QueryResult.notFound =>
                     Sum.inr (FindRes.retErr
                       (PyErr.attributeError "Did not find any results for site"))
                   | QueryResult.multiple =>
                     Sum.inr (FindRes.raised (PyErr.valueError pynetboxMultipleMsg))
                 | Option.none => Sum.inl vd0) with
          | Sum.inr e => e
          | Sum.inl vd1 =>
            match (match dGetTruthy es "vlan_group" with
                   | some g =>
                     match q "ipam" "vlan_groups" [("slug", Value.str g)] with
                     | QueryResult.found i => Sum.inl (vd1 ++ [("group_id", Value.num i)])
                     | QueryResult.notFound =>
                       Sum.inr (FindRes.retErr
                         (PyErr.attributeError "Did not find any results for vlan_group"))
                     | QueryResult.multiple =>
                       Sum.inr (FindRes.raised (PyErr.valueError pynetboxMultipleMsg))
                   | Option.none => Sum.inl vd1) with
            | Sum.inr e => e
            | Sum.inl vd2 =>
              match (match dGetTruthy es "tenant" with
                     | some t =>
                       match q "tenancy" "tenants" [("slug", Value.str t)] with
                       | QueryResult.found i => Sum.inl (vd2 ++ [("tenant_id", Value.num i)])
                       | QueryResult.notFound =>
                         Sum.inr (FindRes.retErr
                           (PyErr.attributeError "Did not find any results for tenant"))
                       | QueryResult.multiple =>
                         Sum.inr (FindRes.raised (PyErr.valueError pynetboxMultipleMsg))
                     | Option.none => Sum.inl vd2) with
              | Sum.inr e => e
              | Sum.inl vd3 =>
                match q app endpoint vd3 with
                | QueryResult.found i => FindRes.ok (applyDefaultId r k (some i))
                | QueryResult.notFound => FindRes.ok (applyDefaultId r k Option.none)
                | QueryResult.multiple =>
                  FindRes.retErr
                    (PyErr.valueError ("Multiple results found while searching for key: " ++ k))
        | _ => FindRes.raised (PyErr.attributeError "value has no attribute get")
      else
        match q app endpoint [((alookup QUERY_TYPES k).getD "q", v)] with
        | QueryResult.found i => FindRes.ok (applyDefaultId r k (some i))
        | QueryResult.notFound => FindRes.ok (applyDefaultId r k Option.none)
        | QueryResult.multiple =>
          FindRes.retErr
            (PyErr.valueError ("Multiple results found while searching for key: " ++ k))

/-- The `find_ids` loop over the item list of the original dict, threading
the record being mutated. -/
def find_ids_go (q : QueryFn) : List (String × Value) → Record → FindRes
  | [], r => FindRes.ok r
  | (k, v) :: rest, r =>
    match resolveOne q k v r with
    | FindRes.ok r' => find_ids_go q rest r'
    | FindRes.raised e => FindRes.raised e
    | FindRes.retErr e => FindRes.retErr e

/-- `find_ids` from `netbox_utils.py`. -/
def find_ids (q : QueryFn) (data : Record) : FindRes :=
  find_ids_go q data data

/-- The asymmetric slug canonicalization of `normalize_data`: strip spaces
when a hyphen is already present, else turn spaces into hyphens when
present, else just lower-case. -/
def slugNorm (s : String) : String :=
  if hasChar s '-' then pyLower (stripSpaces s)
  else if hasChar s ' ' then pyLower (spaceToHyphen s)
  else pyLower s

/-- `QUERY_TYPES.get(k, "q")`. -/
def queryType (k : String) : String := (alookup QUERY_TYPES k).getD "q"

/-- One `normalize_data` step for the pair `(k, v)`: nested dicts have each
slug-typed sub-value canonicalized; scalar slug-typed values must be
strings (`"-" in v` raises `TypeError` otherwise) and are canonicalized. -/
def normVal (k : String) (v : Value) : Except PyErr Value :=
  match v with
  | Value.vdict es =>
    Except.ok (Value.vdict (es.map (fun p =>
      if queryType p.1 == "slug" then (p.1, slugNorm p.2) else p)))
  | Value.str s =>
    if queryType k == "slug" then Except.ok (Value.str (slugNorm s)) else Except.ok (Value.str s)
  | v =>
    if queryType k == "slug" then Except.error (PyErr.typeError "argument is not iterable")
    else Except.ok v

/-- `normalize_data` from `netbox_utils.py`: per-key canonicalization over
the record, stopping at the first raised exception. -/
def normalize_data (r : Record) : Except PyErr Record :=
  match r with
  | [] => Except.ok []
  | (k, v) :: rest =>
    match normVal k v with
    | Except.error e => Except.error e
    | Except.ok v' =>
      match normalize_data rest with
      | Except.error e => Except.error e
      | Except.ok rest' => Except.ok ((k, v') :: rest')

/-- The status-translation step of `netbox_create_prefix`: when the record
has a truthy `status` it is lower-cased and looked up in `PREFIX_STATUS`;
an unknown label silently becomes Python `None` (`dict.get` misses), and a
non-string truthy status raises `AttributeError` (`.lower()`). -/
def statusTranslate (r : Record) : Except PyErr Record :=
  if pyTruthy (alookup r "status") then
    match alookup r "status" with
    | some (Value.str s) =>
      Except.ok (recSet r "status"
        (match alookup PREFIX_STATUS (pyLower s) with
         | some n => Value.num n
         | Option.none => Value.pyNone))
    | some _ => Except.error (PyErr.attributeError "object has no attribute lower")
    | Option.none => Except.error (PyErr.keyError "status")
  else Except.ok r

/-- The normalize → translate-status → resolve pipeline that both branches
of `netbox_create_prefix` run before creating, with crashes of the two
pure steps mapped to raised exceptions. -/
def createPrelude (q : QueryFn) (data : Record) : FindRes :=
  match normalize_data data with
  | Except.error e => FindRes.raised e
  | Except.ok nd0 =>
    match statusTranslate nd0 with
    | Except.error e => FindRes.raised e
    | Except.ok nd => find_ids q nd

/-- A prefix object held by the remote service: numeric id, network
address and mask length (the uniqueness key parts), the optional VRF id
scope, and its serialized form. -/
structure PrefixObj where
  id : Nat
  network : String
  mask : String
  vrf : Option Nat
  ser : List (String × String)
deriving DecidableEq, Repr

/-- Outcome of a `nb_endpoint.create(data)` call: the created object, or
the parsed body of a `pynetbox.RequestError`. -/
inductive CreateOutcome where
  | created (obj : PrefixObj)
  | rejected (body : Record)
deriving DecidableEq, Repr

/-- The remote service together with ghost logs.  `q` serves the read-only
resolver queries; `prefixes` is the state of the prefixes collection
probed and written by the reconciler; `createResp` is the server's
decision on a create payload.  `probeLog`, `createLog` and `deleteLog`
record every probe, create and delete call issued. -/
structure Store where
  q : QueryFn
  prefixes : List PrefixObj
  createResp : Record → CreateOutcome
  probeLog : List (String × String × (String × Value)) := []
  createLog : List Record := []
  deleteLog : List Nat := []

/-- Result of the existence probe `nb_endpoint.get(q=…, mask_length=…, …)`
on the prefixes collection. -/
inductive ProbeRes where
  | one (o : PrefixObj)
  | nothing
  | many
deriving DecidableEq, Repr

/-- Does a stored prefix match the probe scope?  `vrf="null"` matches only
VRF-less prefixes; `vrf_id=<int>` matches that VRF id; a `vrf_id` carrying
anything but an integer (an unresolved name) matches nothing. -/
def scopeMatch (scope : String × Value) (o : PrefixObj) : Bool :=
  if scope.1 == "vrf" then o.vrf == Option.none
  else
    match scope.2 with
    | Value.num i => o.vrf == some i
    | _ => false

/-- Does a stored prefix match the probe `(network, mask, scope)`? -/
def probeMatch (network mask : String) (scope : String × Value) (o : PrefixObj) : Bool :=
  o.network == network && o.mask == mask && scopeMatch scope o

/-- The existence probe `nb_endpoint.get(q=…, mask_length=…, …)` on the
prefixes collection: zero, one, or several matches (the latter is the
`ValueError` pynetbox raises). -/
def probeResult (ps : List PrefixObj) (network mask : String) (scope : String × Value) :
    ProbeRes :=
  match ps.filter (probeMatch network mask scope) with
  | [] => ProbeRes.nothing
  | [o] => ProbeRes.one o
  | _ => ProbeRes.many

/-- Ghost bookkeeping: record an issued existence probe. -/
def logProbe (s : Store) (n m : String) (sc : String × Value) : Store :=
  { s with probeLog := s.probeLog ++ [(n, m, sc)] }

/-- Normal return of a reconciler function, or an unhandled Python
exception escaping it. -/
inductive RunOut where
  | ok (result : Record)
  | exc (e : PyErr)
deriving Repr

/-- `netbox_create_prefix` from `netbox_prefix.py`.  The VRF-carrying
branch normalizes, translates the status, resolves and only then probes,
scoped by `vrf_id=data["vrf"]`; the VRF-less branch probes scoped by
`vrf="null"` first and normalizes/resolves/creates only when the probe
found nothing.  A create call appends the payload to the ghost create log
and, when the server accepts, the new object to the collection; a
rejection returns the parsed `RequestError` body as the result. -/
def netbox_create_prefix (s : Store) (data : Record) : RunOut × Store :=
  match recItem data "prefix" with
  | Except.error e => (RunOut.exc e, s)
  | Except.ok pv =>
    match pv with
    | Value.str p =>
      match pySplit p '/' with
      | network :: mask :: _ =>
        if pyTruthy (alookup data "vrf") then
          match createPrelude s.q data with
          | FindRes.raised e => (RunOut.exc e, s)
          | FindRes.retErr _ =>
            (RunOut.exc (PyErr.attributeError "object has no attribute get"), s)
          | FindRes.ok d =>
            if pyTruthy (alookup d "failed") then (RunOut.ok d, s)
            else
              match recItem d "vrf" with
              | Except.error e => (RunOut.exc e, s)
              | Except.ok w =>
                match probeResult s.prefixes network mask ("vrf_id", w) with
                | ProbeRes.many =>
                  (RunOut.ok [("failed", Value.str "Returned more than one result")],
                   logProbe s network mask ("vrf_id", w))
                | ProbeRes.nothing =>
                  (match s.createResp d with
                   | CreateOutcome.created obj =>
                     (RunOut.ok [("success", Value.vdict obj.ser)],
                      { logProbe s network mask ("vrf_id", w) with
                        prefixes := s.prefixes ++ [obj],
                        createLog := s.createLog ++ [d] })
                   | CreateOutcome.rejected body =>
                     (RunOut.ok body,
                      { logProbe s network mask ("vrf_id", w) with
                        createLog := s.createLog ++ [d] }))
                | ProbeRes.one _ =>
                  match recItem d "prefix" with
                  | Except.error e =>
                    (RunOut.exc e, logProbe s network mask ("vrf_id", w))
                  | Except.ok pw =>
                    (RunOut.ok [("failed",
                       Value.str (render pw ++ " already exists in Netbox"))],
                     logProbe s network mask ("vrf_id", w))
        else
          match probeResult s.prefixes network mask ("vrf", Value.str "null") with
          | ProbeRes.many =>
            (RunOut.ok [("failed",
               Value.str "Returned more than one result. Try specifying VRF.")],
             logProbe s network mask ("vrf", Value.str "null"))
          | ProbeRes.nothing =>
            (match createPrelude s.q data with
             | FindRes.raised e =>
               (RunOut.exc e, logProbe s network mask ("vrf", Value.str "null"))
             | FindRes.retErr _ =>
               (RunOut.exc (PyErr.attributeError "object has no attribute get"),
                logProbe s network mask ("vrf", Value.str "null"))
             | FindRes.ok d =>
               if pyTruthy (alookup d "failed") then
                 (RunOut.ok d, logProbe s network mask ("vrf", Value.str "null"))
               else
                 match s.createResp d with
                 | CreateOutcome.created obj =>
                   (RunOut.ok [("success", Value.vdict obj.ser)],
                    { logProbe s network mask ("vrf", Value.str "null") with
                      prefixes := s.prefixes ++ [obj],
                      createLog := s.createLog ++ [d] })
                 | CreateOutcome.rejected body =>
                   (RunOut.ok body,
                    { logProbe s network mask ("vrf", Value.str "null") with
                      createLog := s.createLog ++ [d] }))
          | ProbeRes.one _ =>
            match recItem data "prefix" with
            | Except.error e =>
              (RunOut.exc e, logProbe s network mask ("vrf", Value.str "null"))
            | Except.ok pw =>
              (RunOut.ok [("failed",
                 Value.str (render pw ++ " already exists in Netbox"))],
               logProbe s network mask ("vrf", Value.str "null"))
      | _ => (RunOut.exc (PyErr.indexError "list index out of range"), s)
    | _ => (RunOut.exc (PyErr.attributeError "object has no attribute split"), s)

/-- `netbox_delete_prefix` from `netbox_prefix.py`.  Normalizes, probes
(resolving first when a VRF is present — the resolver result is *not*
checked for failure here), and deletes the probed object (pynetbox
`delete()` reports success); a missing object surfaces as the caught
`AttributeError` → "not found". -/
def netbox_delete_prefix (s : Store) (data : Record) : RunOut × Store :=
  match normalize_data data with
  | Except.error e => (RunOut.exc e, s)
  | Except.ok nd =>
    match recItem nd "prefix" with
    | Except.error e => (RunOut.exc e, s)
    | Except.ok pv =>
      match pv with
      | Value.str p =>
        match pySplit p '/' with
        | network :: mask :: _ =>
          if pyTruthy (alookup nd "vrf") then
            match find_ids s.q nd with
            | FindRes.raised e => (RunOut.exc e, s)
            | FindRes.retErr _ =>
              (RunOut.exc (PyErr.typeError "object is not subscriptable"), s)
            | FindRes.ok d =>
              match recItem d "vrf" with
              | Except.error e => (RunOut.exc e, s)
              | Except.ok w =>
                match probeResult s.prefixes network mask ("vrf_id", w) with
                | ProbeRes.many =>
                  (RunOut.ok [("failed", Value.str "Returned more than one result")],
                   logProbe s network mask ("vrf_id", w))
                | ProbeRes.nothing =>
                  (RunOut.ok [("failed", Value.str (p ++ " not found"))],
                   logProbe s network mask ("vrf_id", w))
                | ProbeRes.one o =>
                  (RunOut.ok [("success", Value.str (p ++ " deleted from Netbox"))],
                   { logProbe s network mask ("vrf_id", w) with
                     prefixes := s.prefixes.filter (fun x => !(x.id == o.id)),
                     deleteLog := s.deleteLog ++ [o.id] })
          else
            match probeResult s.prefixes network mask ("vrf", Value.str "null") with
            | ProbeRes.many =>
              (RunOut.ok [("failed",
                 Value.str "Returned more than one result. Try specifying VRF")],
               logProbe s network mask ("vrf", Value.str "null"))
            | ProbeRes.nothing =>
              (RunOut.ok [("failed", Value.str (p ++ " not found"))],
               logProbe s network mask ("vrf", Value.str "null"))
            | ProbeRes.one o =>
              (RunOut.ok [("success", Value.str (p ++ " deleted from Netbox"))],
               { logProbe s network mask ("vrf", Value.str "null") with
                 prefixes := s.prefixes.filter (fun x => !(x.id == o.id)),
                 deleteLog := s.deleteLog ++ [o.id] })
        | _ => (RunOut.exc (PyErr.indexError "list index out of range"), s)
      | _ => (RunOut.exc (PyErr.attributeError "object has no attribute split"), s)

/-- `main` from `netbox_prefix.py`, from the point where connection setup
has succeeded: dispatch on the state (the source tests `"present" in
state`), run the reconciler, and exit with `changed` true exactly when the
response carries a truthy `success`.  An unhandled exception aborts the
module without an exit value (`Option.none`). -/
def mainRun (s : Store) (data : Record) (state : String) :
    Option (Bool × Record) × Store :=
  if strContainsSub state "present" then
    match netbox_create_prefix s data with
    | (RunOut.ok resp, s') => (some (pyTruthy (alookup resp "success"), resp), s')
    | (RunOut.exc _, s') => (Option.none, s')
  else
    match netbox_delete_prefix s data with
    | (RunOut.ok resp, s') => (some (pyTruthy (alookup resp "success"), resp), s')
    | (RunOut.exc _, s') => (Option.none, s')

/-! ### Basic record and string lemmas -/

theorem alookup_recSet_self (r : Record) (k : String) (v : Value) :
    alookup (recSet r k v) k = some v := by
  induction r with
  | nil => simp [recSet, alookup]
  | cons p rest ih =>
    obtain ⟨k', v'⟩ := p
    by_cases h : (k' == k) = true
    · simp [recSet, h, alookup]
    · simp [recSet, h, alookup, ih]

theorem alookup_recSet_ne (r : Record) (k k2 : String) (v : Value) (h : k2 ≠ k) :
    alookup (recSet r k v) k2 = alookup r k2 := by
  induction r with
  | nil =>
    have hne : (k == k2) = false := by
      simp only [beq_eq_false_iff_ne]
      intro hc
      exact h hc.symm
    simp [recSet, alookup, hne]
  | cons p rest ih =>
    obtain ⟨k', v'⟩ := p
    by_cases hk : (k' == k) = true
    · have hk' : k' = k := eq_of_beq hk
      subst hk'
      have : (k' == k2) = false := by
        simp only [beq_eq_false_iff_ne]
        intro hc
        exact h hc.symm
      simp [recSet, alookup, this]
    · simp only [recSet, hk, if_neg]
      simp [alookup, ih]

theorem lowerChar_toNat_of_upper (c : Char) (h : 65 ≤ c.toNat ∧ c.toNat ≤ 90) :
    (lowerChar c).toNat = c.toNat + 32 := by
  unfold lowerChar
  rw [if_pos h]
  have hv : (c.toNat + 32).isValidChar := by
    left
    have := h.2
    omega
  rw [Char.ofNat, dif_pos hv]
  rfl

theorem lowerChar_of_not_upper (c : Char) (h : ¬ (65 ≤ c.toNat ∧ c.toNat ≤ 90)) :
    lowerChar c = c := by
  unfold lowerChar
  rw [if_neg h]

theorem lowerChar_idem (c : Char) : lowerChar (lowerChar c) = lowerChar c := by
  by_cases h : 65 ≤ c.toNat ∧ c.toNat ≤ 90
  · have h1 := lowerChar_toNat_of_upper c h
    apply lowerChar_of_not_upper
    omega
  · rw [lowerChar_of_not_upper c h]
    exact lowerChar_of_not_upper c h

theorem lowerChar_eq_iff (c : Char) (d : Char) (hd : d.toNat < 65) :
    lowerChar c = d ↔ c = d := by
  constructor
  · intro h
    by_cases hu : 65 ≤ c.toNat ∧ c.toNat ≤ 90
    · exfalso
      have h1 := lowerChar_toNat_of_upper c hu
      have h2 := congrArg Char.toNat h
      rw [h1] at h2
      omega
    · rwa [lowerChar_of_not_upper c hu] at h
  · intro h
    rw [h]
    exact lowerChar_of_not_upper d (by omega)

theorem mem_map_lowerChar (l : List Char) (d : Char) (hd : d.toNat < 65) :
    d ∈ l.map lowerChar ↔ d ∈ l := by
  simp only [List.mem_map]
  constructor
  · rintro ⟨c, hc, hcd⟩
    rwa [(lowerChar_eq_iff c d hd).mp hcd] at hc
  · intro h
    exact ⟨d, h, (lowerChar_eq_iff d d hd).mpr rfl⟩

theorem hasChar_iff (s : String) (c : Char) : hasChar s c = true ↔ c ∈ s.data := by
  simp [hasChar, List.contains]

theorem hasChar_pyLower (s : String) (c : Char) (hc : c.toNat < 65) :
    hasChar (pyLower s) c = hasChar s c := by
  have h1 : (hasChar (pyLower s) c = true) ↔ (hasChar s c = true) := by
    rw [hasChar_iff, hasChar_iff]
    show c ∈ s.data.map lowerChar ↔ c ∈ s.data
    exact mem_map_lowerChar s.data c hc
  cases hx : hasChar s c
  · cases hy : hasChar (pyLower s) c
    · rfl
    · rw [h1.mp hy] at hx
      cases hx
  · exact h1.mpr hx

theorem pyLower_idem (s : String) : pyLower (pyLower s) = pyLower s := by
  show String.mk ((s.data.map lowerChar).map lowerChar) = String.mk (s.data.map lowerChar)
  rw [List.map_map]
  congr 1
  apply List.map_congr_left
  intro c _
  exact lowerChar_idem c

theorem hasChar_false_iff (s : String) (c : Char) : hasChar s c = false ↔ c ∉ s.data := by
  rw [← Bool.not_eq_true, not_iff_not]
  exact hasChar_iff s c

theorem hasChar_stripSpaces_space (s : String) : hasChar (stripSpaces s) ' ' = false := by
  rw [hasChar_false_iff]
  show ' ' ∉ s.data.filter (fun c => !(c == ' '))
  intro h
  have := (List.mem_filter.mp h).2
  simp at this

theorem hasChar_stripSpaces_dash (s : String) :
    hasChar (stripSpaces s) '-' = hasChar s '-' := by
  have h1 : ('-' ∈ (stripSpaces s).data) ↔ ('-' ∈ s.data) := by
    show ('-' ∈ s.data.filter (fun c => !(c == ' '))) ↔ _
    rw [List.mem_filter]
    simp
  cases hx : hasChar s '-'
  · rw [hasChar_false_iff] at *
    intro h
    exact hx (h1.mp h)
  · rw [hasChar_iff] at *
    exact h1.mpr hx

theorem stripSpaces_of_no_space (s : String) (h : hasChar s ' ' = false) :
    stripSpaces s = s := by
  rw [hasChar_false_iff] at h
  show String.mk (s.data.filter (fun c => !(c == ' '))) = s
  have : s.data.filter (fun c => !(c == ' ')) = s.data := by
    apply List.filter_eq_self.mpr
    intro c hc
    simp only [Bool.not_eq_true']
    rw [beq_eq_false_iff_ne]
    intro hce
    rw [hce] at hc
    exact h hc
  rw [this]

theorem hasChar_spaceToHyphen_space (s : String) :
    hasChar (spaceToHyphen s) ' ' = false := by
  rw [hasChar_false_iff]
  show ' ' ∉ s.data.map (fun c => if c == ' ' then '-' else c)
  intro h
  obtain ⟨c, _, hc⟩ := List.mem_map.mp h
  by_cases hce : (c == ' ') = true
  · rw [if_pos hce] at hc
    cases hc
  · rw [if_neg hce] at hc
    exact hce (by rw [hc]; rfl)

theorem hasChar_spaceToHyphen_dash (s : String) (h : hasChar s ' ' = true) :
    hasChar (spaceToHyphen s) '-' = true := by
  rw [hasChar_iff] at *
  show '-' ∈ s.data.map (fun c => if c == ' ' then '-' else c)
  apply List.mem_map.mpr
  exact ⟨' ', h, by simp⟩

theorem slugNorm_idem (s : String) : slugNorm (slugNorm s) = slugNorm s := by
  unfold slugNorm
  by_cases hd : hasChar s '-' = true
  · rw [if_pos hd]
    have hd' : hasChar (pyLower (stripSpaces s)) '-' = true := by
      rw [hasChar_pyLower _ _ (by decide), hasChar_stripSpaces_dash]
      exact hd
    rw [if_pos hd']
    have hs' : hasChar (pyLower (stripSpaces s)) ' ' = false := by
      rw [hasChar_pyLower _ _ (by decide)]
      exact hasChar_stripSpaces_space s
    rw [stripSpaces_of_no_space _ hs', pyLower_idem]
  · rw [if_neg hd]
    by_cases hs : hasChar s ' ' = true
    · rw [if_pos hs]
      have hd' : hasChar (pyLower (spaceToHyphen s)) '-' = true := by
        rw [hasChar_pyLower _ _ (by decide)]
        exact hasChar_spaceToHyphen_dash s hs
      rw [if_pos hd']
      have hs' : hasChar (pyLower (spaceToHyphen s)) ' ' = false := by
        rw [hasChar_pyLower _ _ (by decide)]
        exact hasChar_spaceToHyphen_space s
      rw [stripSpaces_of_no_space _ hs', pyLower_idem]
    · rw [if_neg hs]
      have hd' : ¬ hasChar (pyLower s) '-' = true := by
        rw [hasChar_pyLower _ _ (by decide)]
        exact hd
      have hs' : ¬ hasChar (pyLower s) ' ' = true := by
        rw [hasChar_pyLower _ _ (by decide)]
        exact hs
      rw [if_neg hd', if_neg hs', pyLower_idem]

theorem normVal_idem (k : String) (v v' : Value) (h : normVal k v = Except.ok v') :
    normVal k v' = Except.ok v' := by
  cases v with
  | vdict es =>
    have hv' : v' = Value.vdict (es.map (fun p =>
        if queryType p.1 == "slug" then (p.1, slugNorm p.2) else p)) := by
      simpa [normVal] using h.symm
    subst hv'
    show Except.ok (Value.vdict _) = Except.ok (Value.vdict _)
    congr 2
    rw [List.map_map]
    apply List.map_congr_left
    intro p _
    by_cases hq : (queryType p.1 == "slug") = true
    · simp only [Function.comp, hq, if_pos, slugNorm_idem]
    · simp only [Function.comp, hq, if_neg]
      simp [hq]
  | str s =>
    by_cases hq : (queryType k == "slug") = true
    · have hv' : v' = Value.str (slugNorm s) := by
        simpa [normVal, hq] using h.symm
      subst hv'
      simp [normVal, hq, slugNorm_idem]
    · have hv' : v' = Value.str s := by
        simpa [normVal, hq] using h.symm
      subst hv'
      simp [normVal, hq]
  | num n =>
    by_cases hq : (queryType k == "slug") = true
    · simp [normVal, hq] at h
    · have hv' : v' = Value.num n := by
        simpa [normVal, hq] using h.symm
      subst hv'
      simp [normVal, hq]
  | bool b =>
    by_cases hq : (queryType k == "slug") = true
    · simp [normVal, hq] at h
    · have hv' : v' = Value.bool b := by
        simpa [normVal, hq] using h.symm
      subst hv'
      simp [normVal, hq]
  | pyNone =>
    by_cases hq : (queryType k == "slug") = true
    · simp [normVal, hq] at h
    · have hv' : v' = Value.pyNone := by
        simpa [normVal, hq] using h.symm
      subst hv'
      simp [normVal, hq]

theorem normalize_data_idem (r r' : Record) (h : normalize_data r = Except.ok r') :
    normalize_data r' = Except.ok r' := by
  induction r generalizing r' with
  | nil =>
    have : r' = [] := by simpa [normalize_data] using h.symm
    subst this
    rfl
  | cons p rest ih =>
    obtain ⟨k, v⟩ := p
    unfold normalize_data at h
    cases hv : normVal k v with
    | error e => rw [hv] at h; cases h
    | ok v1 =>
      rw [hv] at h
      cases hr : normalize_data rest with
      | error e => rw [hr] at h; cases h
      | ok rest1 =>
        rw [hr] at h
        have hr' : r' = (k, v1) :: rest1 := by
          cases h
          rfl
        subst hr'
        unfold normalize_data
        rw [normVal_idem k v v1 hv, ih rest1 hr]

/-- Pointwise description of a successful `normalize_data` run, used to
chase single fields through the pipeline. -/
theorem normalize_data_lookup (r r' : Record) (h : normalize_data r = Except.ok r')
    (k : String) (v : Value) (hv : alookup r k = some v) :
    ∃ v', normVal k v = Except.ok v' ∧ alookup r' k = some v' := by
  induction r generalizing r' with
  | nil => cases hv
  | cons p rest ih =>
    obtain ⟨k0, v0⟩ := p
    unfold normalize_data at h
    cases hv0 : normVal k0 v0 with
    | error e => rw [hv0] at h; cases h
    | ok v1 =>
      rw [hv0] at h
      cases hr : normalize_data rest with
      | error e => rw [hr] at h; cases h
      | ok rest1 =>
        rw [hr] at h
        have hr' : r' = (k0, v1) :: rest1 := by
          cases h
          rfl
        subst hr'
        by_cases hk : (k0 == k) = true
        · have hkv : v0 = v := by
            simpa [alookup, hk] using hv
          subst hkv
          refine ⟨v1, ?_, ?_⟩
          · rw [← hv0]
            congr 1
            exact (eq_of_beq hk).symm
          · simp [alookup, hk]
        · have hv' : alookup rest k = some v := by
            simpa [alookup, hk] using hv
          obtain ⟨v', h1, h2⟩ := ih rest1 hr hv'
          exact ⟨v', h1, by simp [alookup, hk, h2]⟩

/-! ### Claim theorems -/

/-- C7: slug normalization is idempotent — `normalize_data` applied to any
record it has already normalized succeeds and leaves the record unchanged
(the concrete "NOC Test" → "noc-test" instance is the witness below). -/
theorem claim_C7_normalize_idempotent (r r' : Record)
    (h : normalize_data r = Except.ok r') :
    normalize_data r' = Except.ok r' :=
  normalize_data_idem r r' h

/-- Witness for C7: normalizing the slug-typed field value "NOC Test"
yields "noc-test", and normalizing the result again leaves it unchanged. -/
theorem claim_C7_witness :
    normalize_data [("site", Value.str "NOC Test")]
        = Except.ok [("site", Value.str "noc-test")]
      ∧ normalize_data [("site", Value.str "noc-test")]
        = Except.ok [("site", Value.str "noc-test")] :=
  ⟨by rfl,
   claim_C7_normalize_idempotent [("site", Value.str "NOC Test")]
     [("site", Value.str "noc-test")] (by rfl)⟩

/-- C9: the resolver is not total over registered fields — `CONVERT_TO_ID`
maps a top-level `vlan_group` field to the collection "vlan_groups", which
appears in no endpoint list of `API_APPS_ENDPOINTS` (the registry only
lists the misspelled "vlan_grups"), so `find_app` leaves its result
unbound and any `find_ids` run that reaches a `vlan_group` entry raises
`UnboundLocalError` instead of returning a record or a structured error. -/
theorem claim_C9_vlan_group_crash :
    alookup CONVERT_TO_ID "vlan_group" = some "vlan_groups"
      ∧ find_app "vlan_groups" = Option.none
      ∧ (∃ eps, alookup API_APPS_ENDPOINTS "ipam" = some eps ∧ eps.contains "vlan_grups")
      ∧ (∀ (q : QueryFn) (v : Value) (rest : List (String × Value)) (r : Record),
          find_ids_go q (("vlan_group", v) :: rest) r
            = FindRes.raised (PyErr.unboundLocal "nb_app"))
      ∧ (∀ (q : QueryFn) (v : Value),
          find_ids q [("vlan_group", v)] = FindRes.raised (PyErr.unboundLocal "nb_app")) := by
  refine ⟨by decide, by decide, ⟨_, rfl, by decide⟩, ?_, ?_⟩
  · intro q v rest r
    rfl
  · intro q v
    rfl

/-- `find_app` values for the endpoints the claims exercise. -/
theorem find_app_ip_addresses : find_app "ip_addresses" = some "ipam" := by decide

theorem find_app_vrfs : find_app "vrfs" = some "ipam" := by decide

theorem find_app_vlans : find_app "vlans" = some "ipam" := by decide

theorem find_app_device_roles : find_app "device_roles" = some "dcim" := by decide

/-- C10: in the `nat_inside` missing-VRF error path the raised message
interpolates the record's *top-level* `vrf` value (`data["vrf"]`), not the
`nat_inside` value's own `vrf` sub-reference; when the record has no
top-level `vrf` key the lookup itself raises `KeyError` instead of the
descriptive `ValueError`. -/
theorem claim_C10_nat_inside_vrf_interpolation (q : QueryFn) (addr subvrf : String)
    (w : Value)
    (hq : q "ipam" "vrfs" [("name", Value.str subvrf)] = QueryResult.notFound)
    (hsub : subvrf ≠ "") :
    find_ids q [("nat_inside", Value.vdict [("address", addr), ("vrf", subvrf)]),
                ("vrf", w)]
        = FindRes.raised
            (PyErr.valueError (render w ++ " does not exist - Please create VRF"))
      ∧ find_ids q [("nat_inside", Value.vdict [("address", addr), ("vrf", subvrf)])]
        = FindRes.raised (PyErr.keyError "vrf") := by
  have hsub' : (subvrf == "") = false := by
    rw [beq_eq_false_iff_ne]
    exact hsub
  constructor
  · show find_ids_go q _ _ = _
    simp [find_ids_go, resolveOne, dGetTruthy, alookup, hsub', hq,
          find_app_ip_addresses, find_app_vrfs]
  · show find_ids_go q _ _ = _
    simp [find_ids_go, resolveOne, dGetTruthy, alookup, hsub', hq,
          find_app_ip_addresses, find_app_vrfs]

/-- Witness for C10: with a remote store that knows no VRFs, a record whose
`nat_inside` carries the sub-VRF "ghost" raises the descriptive message
interpolating the top-level value "blue" (not "ghost"), and the same
record without a top-level `vrf` raises a bare `KeyError`. -/
theorem claim_C10_witness :
    find_ids (fun _ _ _ => QueryResult.notFound)
        [("nat_inside", Value.vdict [("address", "10.1.1.1"), ("vrf", "ghost")]),
         ("vrf", Value.str "blue")]
      = FindRes.raised (PyErr.valueError "blue does not exist - Please create VRF")
      ∧ find_ids (fun _ _ _ => QueryResult.notFound)
          [("nat_inside", Value.vdict [("address", "10.1.1.1"), ("vrf", "ghost")])]
        = FindRes.raised (PyErr.keyError "vrf") :=
  claim_C10_nat_inside_vrf_interpolation (fun _ _ _ => QueryResult.notFound)
    "10.1.1.1" "ghost" (Value.str "blue") rfl (by decide)

/-! ### The zero-match default-id policy (C1) -/

theorem alookup_of_mem_nodup (r : Record) (hnd : (r.map Prod.fst).Nodup)
    (k : String) (v : Value) (h : (k, v) ∈ r) : alookup r k = some v := by
  induction r with
  | nil => cases h
  | cons p rest ih =>
    obtain ⟨k0, v0⟩ := p
    rcases List.mem_cons.mp h with heq | hmem
    · obtain ⟨rfl, rfl⟩ := Prod.mk.injEq .. ▸ heq
      simp [alookup]
    · have hk : k0 ≠ k := by
        intro hc
        subst hc
        exact (List.nodup_cons.mp (by simpa using hnd)).1
          (List.mem_map_of_mem Prod.fst hmem)
      have hbeq : (k0 == k) = false := by
        rw [beq_eq_false_iff_ne]
        exact hk
      simp only [alookup, hbeq, if_neg]
      exact ih (List.nodup_cons.mp (by simpa using hnd)).2 hmem

theorem resolveOne_notFound_step (q : QueryFn)
    (hq : ∀ a e f, q a e f = QueryResult.notFound)
    (k : String) (v : Value) (r r' : Record) (h : resolveOne q k v r = FindRes.ok r') :
    r' = (if (alookup CONVERT_TO_ID k).isSome && !(NO_DEFAULT_ID.contains k)
          then recSet r k (Value.num 1) else r) := by
  have happ : ∀ ep, alookup CONVERT_TO_ID k = some ep →
      applyDefaultId r k Option.none
        = (if (alookup CONVERT_TO_ID k).isSome && !(NO_DEFAULT_ID.contains k)
           then recSet r k (Value.num 1) else r) := by
    intro ep hep
    rw [hep]
    simp only [applyDefaultId, Option.isSome_some, Bool.true_and]
    cases hcon : NO_DEFAULT_ID.contains k <;> simp [hcon]
  unfold resolveOne at h
  cases hc : alookup CONVERT_TO_ID k with
  | none =>
    rw [hc] at h
    dsimp only at h
    cases h
    simp [hc]
  | some ep =>
    rw [hc] at h
    dsimp only at h
    cases ha : find_app ep with
    | none => rw [ha] at h; cases h
    | some app =>
      rw [ha] at h
      dsimp only at h
      by_cases hki : (k == "interface") = true
      · rw [if_pos hki] at h
        cases v with
        | vdict es =>
          dsimp only at h
          cases h1 : dItem es "name" with
          | error e => rw [h1] at h; cases h
          | ok nm =>
            rw [h1] at h
            dsimp only at h
            cases h2 : dItem es "device" with
            | error e => rw [h2] at h; cases h
            | ok dev =>
              rw [h2] at h
              dsimp only at h
              rw [hq] at h
              dsimp only at h
              cases h
              rw [← hc]
              exact happ ep hc
        | str s => dsimp only at h; cases h
        | num n => dsimp only at h; cases h
        | bool b => dsimp only at h; cases h
        | pyNone => dsimp only at h; cases h
      · rw [if_neg hki] at h
        by_cases hkn : (k == "nat_inside") = true
        · rw [if_pos hkn] at h
          cases v with
          | vdict es =>
            dsimp only at h
            cases h1 : dGetTruthy es "vrf" with
            | some vrfName =>
              rw [h1] at h
              dsimp only at h
              rw [hq] at h
              dsimp only at h
              cases h2 : alookup r "vrf" with
              | some w => rw [h2] at h; cases h
              | none => rw [h2] at h; cases h
            | none =>
              rw [h1] at h
              dsimp only at h
              cases h2 : dItem es "address" with
              | error e => rw [h2] at h; cases h
              | ok addr =>
                rw [h2] at h
                dsimp only at h
                rw [hq] at h
                dsimp only at h
                cases h
                rw [← hc]
                exact happ ep hc
          | str s => dsimp only at h; cases h
          | num n => dsimp only at h; cases h
          | bool b => dsimp only at h; cases h
          | pyNone => dsimp only at h; cases h
        · rw [if_neg hkn] at h
          by_cases hkv : (k == "vlan") = true
          · rw [if_pos hkv] at h
            cases v with
            | vdict es =>
              dsimp only at h
              cases h1 : dGetTruthy es "site" with
              | some st =>
                rw [h1] at h
                dsimp only at h
                rw [hq] at h
                dsimp only at h
                cases h
              | none =>
                rw [h1] at h
                dsimp only at h
                cases h2 : dGetTruthy es "vlan_group" with
                | some g =>
                  rw [h2] at h
                  dsimp only at h
                  rw [hq] at h
                  dsimp only at h
                  cases h
                | none =>
                  rw [h2] at h
                  dsimp only at h
                  cases h3 : dGetTruthy es "tenant" with
                  | some t =>
                    rw [h3] at h
                    dsimp only at h
                    rw [hq] at h
                    dsimp only at h
                    cases h
                  | none =>
                    rw [h3] at h
                    dsimp only at h
                    rw [hq] at h
                    dsimp only at h
                    cases h
                    rw [← hc]
                    exact happ ep hc
            | str s => dsimp only at h; cases h
            | num n => dsimp only at h; cases h
            | bool b => dsimp only at h; cases h
            | pyNone => dsimp only at h; cases h
          · rw [if_neg hkv] at h
            rw [hq] at h
            dsimp only at h
            cases h
            rw [← hc]
            exact happ ep hc

theorem find_ids_go_notFound (q : QueryFn)
    (hq : ∀ a e f, q a e f = QueryResult.notFound) :
    ∀ (es : List (String × Value)) (r out : Record),
      (es.map Prod.fst).Nodup →
      find_ids_go q es r = FindRes.ok out →
      (∀ k v, (k, v) ∈ es → alookup r k = some v →
        alookup out k =
          (if (alookup CONVERT_TO_ID k).isSome && !(NO_DEFAULT_ID.contains k)
           then some (Value.num 1) else some v))
      ∧ (∀ k, k ∉ es.map Prod.fst → alookup out k = alookup r k) := by
  intro es
  induction es with
  | nil =>
    intro r out _ h
    have : r = out := by
      simpa [find_ids_go] using h
    subst this
    exact ⟨fun k v hmem => absurd hmem (List.not_mem_nil _), fun _ _ => rfl⟩
  | cons p rest ih =>
    obtain ⟨k, v⟩ := p
    intro r out hnd h
    have hnd' : k ∉ rest.map Prod.fst ∧ (rest.map Prod.fst).Nodup :=
      List.nodup_cons.mp (by simpa using hnd)
    unfold find_ids_go at h
    cases hs : resolveOne q k v r with
    | raised e => rw [hs] at h; cases h
    | retErr e => rw [hs] at h; cases h
    | ok r1 =>
      rw [hs] at h
      have hr1 := resolveOne_notFound_step q hq k v r r1 hs
      obtain ⟨iha, ihb⟩ := ih r1 out hnd'.2 h
      constructor
      · intro k2 v2 hmem hlook
        rcases List.mem_cons.mp hmem with heq | hmem2
        · obtain ⟨rfl, rfl⟩ := Prod.mk.injEq .. ▸ heq
          rw [ihb k2 hnd'.1, hr1]
          cases hcond : ((alookup CONVERT_TO_ID k2).isSome && !(NO_DEFAULT_ID.contains k2)) with
          | true => simp [hcond, alookup_recSet_self]
          | false => simp [hcond, hlook]
        · have hk2 : k2 ≠ k := by
            intro hc
            subst hc
            exact hnd'.1 (List.mem_map_of_mem Prod.fst hmem2)
          apply iha k2 v2 hmem2
          rw [hr1]
          cases hcond : ((alookup CONVERT_TO_ID k).isSome && !(NO_DEFAULT_ID.contains k)) with
          | true => simp [hcond, alookup_recSet_ne _ _ _ _ hk2, hlook]
          | false => simp [hcond, hlook]
      · intro k2 hnot
        have hnot' : k2 ∉ rest.map Prod.fst ∧ k2 ≠ k := by
          constructor
          · intro hc
            exact hnot (by simp [hc])
          · intro hc
            exact hnot (by simp [hc])
        rw [ihb k2 hnot'.1, hr1]
        cases hcond : ((alookup CONVERT_TO_ID k).isSome && !(NO_DEFAULT_ID.contains k)) with
        | true => simp [hcond, alookup_recSet_ne _ _ _ _ hnot'.2]
        | false => simp [hcond]

/-- C1 (amended): when every remote lookup yields zero matches and
`find_ids` completes without error, a resolvable field outside
`NO_DEFAULT_ID` is substituted with the hard-coded id 1, while a
resolvable field inside `NO_DEFAULT_ID` (e.g. `vlan`) is left *in* the
output record with its original, unresolved value — not absent from it
(the claim's "left absent from the output" is refuted by the
counterexample below). -/
theorem claim_C1_default_id_policy (q : QueryFn) (data out : Record)
    (hq : ∀ a e f, q a e f = QueryResult.notFound)
    (hnd : (data.map Prod.fst).Nodup)
    (hok : find_ids q data = FindRes.ok out) :
    ∀ k v, (k, v) ∈ data →
      alookup out k =
        (if (alookup CONVERT_TO_ID k).isSome && !(NO_DEFAULT_ID.contains k)
         then some (Value.num 1) else some v) := by
  intro k v hmem
  exact (find_ids_go_notFound q hq data data out hnd hok).1 k v hmem
    (alookup_of_mem_nodup data hnd k v hmem)

/-- Counterexample for C1 as stated: a `vlan` reference with zero remote
matches is *not* absent from the resolver's output — the record comes
back unchanged and still maps `vlan` to its original nested value. -/
theorem claim_C1_counterexample :
    find_ids (fun _ _ _ => QueryResult.notFound)
        [("vlan", Value.vdict [("name", "v1")])]
      = FindRes.ok [("vlan", Value.vdict [("name", "v1")])]
      ∧ alookup [("vlan", Value.vdict [("name", "v1")])] "vlan"
        = some (Value.vdict [("name", "v1")]) := by
  constructor
  · rfl
  · rfl

/-- Witness for C1: on the two-field record (device_role, vlan) with a
store returning zero matches everywhere, `device_role` is defaulted to id
1 and `vlan` keeps its original value. -/
theorem claim_C1_witness :
    alookup [("device_role", Value.num 1), ("vlan", Value.vdict [("name", "v1")])] "vlan"
      = (if (alookup CONVERT_TO_ID "vlan").isSome && !(NO_DEFAULT_ID.contains "vlan")
         then some (Value.num 1) else some (Value.vdict [("name", "v1")])) :=
  claim_C1_default_id_policy (fun _ _ _ => QueryResult.notFound)
    [("device_role", Value.str "core"), ("vlan", Value.vdict [("name", "v1")])]
    [("device_role", Value.num 1), ("vlan", Value.vdict [("name", "v1")])]
    (fun _ _ _ => rfl) (by decide) (by rfl) "vlan" (Value.vdict [("name", "v1")])
    (by decide)

/-! ### nat_inside / nat_outside resolution (C8) -/

/-- C8 (amended): only `nat_inside` implements the VRF-aware path — its
VRF sub-reference is resolved first (a missing VRF raises the
does-not-exist `ValueError`), a resolved VRF scopes the address query by
`vrf_id`, and a multi-match on the VRF-less address query raises the
"Specify a VRF within nat_inside" message.  `nat_outside` is resolved
through the *generic* path: one query on its registered `address`
attribute carrying the whole value (no VRF sub-resolution at all), with a
multi-match reported as the generic "Multiple results found while
searching for key: nat_outside" returned error. -/
theorem claim_C8_nat_inside_nat_outside :
    (∀ (q : QueryFn) (addr : String),
      find_ids q [("nat_inside", Value.vdict [("address", addr)])]
        = (match q "ipam" "ip_addresses" [("address", Value.str addr)] with
           | QueryResult.found j => FindRes.ok [("nat_inside", Value.num j)]
           | QueryResult.notFound =>
             FindRes.ok [("nat_inside", Value.vdict [("address", addr)])]
           | QueryResult.multiple =>
             FindRes.raised (PyErr.valueError
               ("Multiple results found while searching for nat_inside: " ++ addr
                ++ " - Specify a VRF within nat_inside"))))
    ∧ (∀ (q : QueryFn) (addr vn : String) (i : Nat), vn ≠ "" →
        q "ipam" "vrfs" [("name", Value.str vn)] = QueryResult.found i →
        find_ids q [("nat_inside", Value.vdict [("address", addr), ("vrf", vn)])]
          = (match q "ipam" "ip_addresses"
                [("address", Value.str addr), ("vrf_id", Value.num i)] with
             | QueryResult.found j => FindRes.ok [("nat_inside", Value.num j)]
             | QueryResult.notFound =>
               FindRes.ok [("nat_inside", Value.vdict [("address", addr), ("vrf", vn)])]
             | QueryResult.multiple =>
               FindRes.raised (PyErr.valueError pynetboxMultipleMsg)))
    ∧ (∀ (q : QueryFn) (addr vn : String) (w : Value), vn ≠ "" →
        q "ipam" "vrfs" [("name", Value.str vn)] = QueryResult.notFound →
        find_ids q [("nat_inside", Value.vdict [("address", addr), ("vrf", vn)]),
                    ("vrf", w)]
          = FindRes.raised
              (PyErr.valueError (render w ++ " does not exist - Please create VRF")))
    ∧ (∀ (q : QueryFn) (v : Value),
        find_ids q [("nat_outside", v)]
          = (match q "ipam" "ip_addresses" [("address", v)] with
             | QueryResult.found j => FindRes.ok [("nat_outside", Value.num j)]
             | QueryResult.notFound => FindRes.ok [("nat_outside", v)]
             | QueryResult.multiple =>
               FindRes.retErr (PyErr.valueError
                 "Multiple results found while searching for key: nat_outside"))) := by
  refine ⟨?_, ?_, ?_, ?_⟩
  · intro q addr
    show find_ids_go q _ _ = _
    cases hj : q "ipam" "ip_addresses" [("address", Value.str addr)] with
    | found j =>
      simp [find_ids_go, resolveOne, dGetTruthy, dItem, alookup, applyDefaultId, NO_DEFAULT_ID,
            recSet, find_app_ip_addresses, String.append_assoc, hj]
    | notFound =>
      simp [find_ids_go, resolveOne, dGetTruthy, dItem, alookup, applyDefaultId, NO_DEFAULT_ID,
            recSet, find_app_ip_addresses, String.append_assoc, hj]
    | multiple =>
      simp [find_ids_go, resolveOne, dGetTruthy, dItem, alookup, applyDefaultId, NO_DEFAULT_ID,
            recSet, find_app_ip_addresses, String.append_assoc, hj]
  · intro q addr vn i hvn hq
    have hvn' : (vn == "") = false := by
      rw [beq_eq_false_iff_ne]
      exact hvn
    show find_ids_go q _ _ = _
    cases hj : q "ipam" "ip_addresses" [("address", Value.str addr), ("vrf_id", Value.num i)] with
    | found j =>
      simp [find_ids_go, resolveOne, dGetTruthy, dItem, alookup, applyDefaultId, NO_DEFAULT_ID,
            recSet, find_app_ip_addresses, String.append_assoc, hvn', hq, hj]
    | notFound =>
      simp [find_ids_go, resolveOne, dGetTruthy, dItem, alookup, applyDefaultId, NO_DEFAULT_ID,
            recSet, find_app_ip_addresses, String.append_assoc, hvn', hq, hj]
    | multiple =>
      simp [find_ids_go, resolveOne, dGetTruthy, dItem, alookup, applyDefaultId, NO_DEFAULT_ID,
            recSet, find_app_ip_addresses, String.append_assoc, hvn', hq, hj]
  · intro q addr vn w hvn hq
    have hvn' : (vn == "") = false := by
      rw [beq_eq_false_iff_ne]
      exact hvn
    show find_ids_go q _ _ = _
    simp [find_ids_go, resolveOne, dGetTruthy, alookup, hvn', hq, find_app_ip_addresses]
  · intro q v
    show find_ids_go q _ _ = _
    cases hj : q "ipam" "ip_addresses" [("address", v)] with
    | found j =>
      simp [find_ids_go, resolveOne, alookup, applyDefaultId, recSet, NO_DEFAULT_ID,
            find_app_ip_addresses, queryType, String.append_assoc, hj]
    | notFound =>
      simp [find_ids_go, resolveOne, alookup, applyDefaultId, recSet, NO_DEFAULT_ID,
            find_app_ip_addresses, queryType, String.append_assoc, hj]
    | multiple =>
      simp [find_ids_go, resolveOne, alookup, applyDefaultId, recSet, NO_DEFAULT_ID,
            find_app_ip_addresses, queryType, String.append_assoc, hj]

/-- Counterexample for C8 as stated: a `nat_outside` value carrying a VRF
sub-reference that does not exist remotely (every `vrfs` query misses) is
*not* rejected with a VRF-not-found error — the resolver never looks at
the sub-reference and happily substitutes the id found by the generic
address query. -/
theorem claim_C8_counterexample :
    find_ids
        (fun _ ep _ => if ep == "ip_addresses" then QueryResult.found 5
                       else QueryResult.notFound)
        [("nat_outside", Value.vdict [("address", "10.1.1.1"), ("vrf", "red")])]
      = FindRes.ok [("nat_outside", Value.num 5)] := by
  rfl

/-- Witness for C8: with a store resolving VRF "red" to id 3 and the
scoped address query to id 8, `nat_inside` resolves through the VRF-aware
path to id 8. -/
theorem claim_C8_witness :
    find_ids
        (fun _ ep _ => if ep == "vrfs" then QueryResult.found 3 else QueryResult.found 8)
        [("nat_inside", Value.vdict [("address", "10.1.1.1"), ("vrf", "red")])]
      = FindRes.ok [("nat_inside", Value.num 8)] :=
  claim_C8_nat_inside_nat_outside.2.1
    (fun _ ep _ => if ep == "vrfs" then QueryResult.found 3 else QueryResult.found 8)
    "10.1.1.1" "red" 3 (by decide) rfl


/-! ### Reconciler bookkeeping lemmas -/

theorem list_ne_append_singleton {α : Type} (l : List α) (d : α) : l ≠ l ++ [d] := by
  intro h
  have := congrArg List.length h
  simp at this

/-- Whenever `netbox_create_prefix` appends a payload to the create log —
i.e. actually issues a create call — the payload is exactly the record the
normalize → status → resolve pipeline produced, that pipeline succeeded,
and the produced record carried no `failed` marker. -/
theorem create_call_payload (s : Store) (data : Record) (ro : RunOut) (s' : Store)
    (d : Record) (hrun : netbox_create_prefix s data = (ro, s'))
    (hlog : s'.createLog = s.createLog ++ [d]) :
    createPrelude s.q data = FindRes.ok d
      ∧ pyTruthy (alookup d "failed") = false := by
  unfold netbox_create_prefix at hrun
  repeat' split at hrun
  all_goals cases hrun
  all_goals simp_all [logProbe]

theorem resolveOne_frame (q : QueryFn) (k : String) (v : Value) (r r' : Record)
    (h : resolveOne q k v r = FindRes.ok r') (k2 : String)
    (hk2 : alookup CONVERT_TO_ID k2 = Option.none ∨ k2 ≠ k) :
    alookup r' k2 = alookup r k2 := by
  unfold resolveOne at h
  cases hc : alookup CONVERT_TO_ID k with
  | none =>
    rw [hc] at h
    dsimp only at h
    cases h
    rfl
  | some ep =>
    have hne : k2 ≠ k := by
      rcases hk2 with hnone | hne
      · intro hcc
        subst hcc
        rw [hc] at hnone
        cases hnone
      · exact hne
    have happ : ∀ qid, alookup (applyDefaultId r k qid) k2 = alookup r k2 := by
      intro qid
      cases qid with
      | some i => exact alookup_recSet_ne r k k2 (Value.num i) hne
      | none =>
        unfold applyDefaultId
        cases NO_DEFAULT_ID.contains k <;>
          simp [alookup_recSet_ne r k k2 (Value.num 1) hne]
    rw [hc] at h
    dsimp only at h
    repeat' split at h
    all_goals try cases h
    all_goals try exact happ _
    all_goals (rename_i hbad
               repeat' split at hbad
               all_goals cases hbad)

theorem find_ids_go_frame (q : QueryFn) (k2 : String)
    (hk2 : alookup CONVERT_TO_ID k2 = Option.none) :
    ∀ (es : List (String × Value)) (r out : Record),
      find_ids_go q es r = FindRes.ok out → alookup out k2 = alookup r k2 := by
  intro es
  induction es with
  | nil =>
    intro r out h
    have : r = out := by simpa [find_ids_go] using h
    subst this
    rfl
  | cons p rest ih =>
    obtain ⟨k, v⟩ := p
    intro r out h
    unfold find_ids_go at h
    cases hs : resolveOne q k v r with
    | raised e => rw [hs] at h; cases h
    | retErr e => rw [hs] at h; cases h
    | ok r1 =>
      rw [hs] at h
      rw [ih r1 out h]
      exact resolveOne_frame q k v r r1 hs k2 (Or.inl hk2)

/-- C6 (amended): a truthy string-valued `status` is lower-cased and
translated through `PREFIX_STATUS` (container=0, active=1, reserved=2,
deprecated=3) in the payload of every issued create call; a label outside
the enumeration is *silently* translated to Python `None` (`dict.get`
returning `None`), not rejected with an error — the create call still
goes out carrying `status: None` (see the counterexample). -/
theorem claim_C6_status_translation (s : Store) (data : Record)
    (out : Option (Bool × Record)) (s' : Store) (d : Record) (lab : String)
    (hrun : mainRun s data "present" = (out, s'))
    (hlog : s'.createLog = s.createLog ++ [d])
    (hst : alookup data "status" = some (Value.str lab))
    (hne : lab ≠ "") :
    alookup d "status"
      = some (match alookup PREFIX_STATUS (pyLower lab) with
              | some n => Value.num n
              | Option.none => Value.pyNone) := by
  have hpres : strContainsSub "present" "present" = true := by decide
  unfold mainRun at hrun
  rw [if_pos hpres] at hrun
  rcases hcp : netbox_create_prefix s data with ⟨ro, s2⟩
  rw [hcp] at hrun
  have hs2 : s' = s2 := by
    cases ro <;> (dsimp only at hrun; cases hrun; rfl)
  subst hs2
  obtain ⟨hpre, _⟩ := create_call_payload s data ro s' d hcp hlog
  unfold createPrelude at hpre
  cases hnorm : normalize_data data with
  | error e => rw [hnorm] at hpre; dsimp only at hpre; cases hpre
  | ok nd0 =>
    rw [hnorm] at hpre
    dsimp only at hpre
    cases hstat : statusTranslate nd0 with
    | error e => rw [hstat] at hpre; dsimp only at hpre; cases hpre
    | ok nd =>
      rw [hstat] at hpre
      dsimp only at hpre
      obtain ⟨v', hnv, hnd0⟩ := normalize_data_lookup data nd0 hnorm "status"
        (Value.str lab) hst
      have hv' : v' = Value.str lab := by
        have : normVal "status" (Value.str lab) = Except.ok (Value.str lab) := by rfl
        rw [this] at hnv
        cases hnv
        rfl
      subst hv'
      have htr : pyTruthy (alookup nd0 "status") = true := by
        rw [hnd0]
        simpa [pyTruthy] using hne
      unfold statusTranslate at hstat
      rw [if_pos htr, hnd0] at hstat
      dsimp only at hstat
      have hnd : nd = recSet nd0 "status"
          (match alookup PREFIX_STATUS (pyLower lab) with
           | some n => Value.num n
           | Option.none => Value.pyNone) := by
        cases hstat
        rfl
      subst hnd
      have hfin := find_ids_go_frame s.q "status" (by decide) _ _ d hpre
      rw [hfin, alookup_recSet_self]

/-- A query capability that never finds anything (an empty remote store). -/
def qNoneFn : QueryFn := fun _ _ _ => QueryResult.notFound

/-- A fixed remote prefix object used by the concrete scenarios. -/
def sampleObj : PrefixObj :=
  { id := 1, network := "10.0.0.0", mask := "24", vrf := Option.none,
    ser := [("id", "1"), ("prefix", "10.0.0.0/24")] }

/-- A store with an empty prefixes collection whose server accepts every
create call with `sampleObj`. -/
def acceptStore : Store :=
  { q := qNoneFn, prefixes := [], createResp := fun _ => CreateOutcome.created sampleObj }

/-- Counterexample for C6 as stated: the unknown status label "Bogus" is
not rejected with an unknown-enum-value error — the reconciliation runs to
a successful create whose payload silently carries `status: None`. -/
theorem claim_C6_counterexample :
    (mainRun acceptStore
        [("prefix", Value.str "10.0.0.0/24"), ("status", Value.str "Bogus")]
        "present").1
      = some (true, [("success", Value.vdict sampleObj.ser)])
      ∧ (mainRun acceptStore
          [("prefix", Value.str "10.0.0.0/24"), ("status", Value.str "Bogus")]
          "present").2.createLog
        = [[("prefix", Value.str "10.0.0.0/24"), ("status", Value.pyNone)]] := by
  constructor
  · rfl
  · rfl

/-- Witness for C6: the known label "Reserved" reaches the create payload
as the wire integer 2. -/
theorem claim_C6_witness :
    alookup [("prefix", Value.str "10.0.0.0/24"), ("status", Value.num 2)] "status"
      = some (match alookup PREFIX_STATUS (pyLower "Reserved") with
              | some n => Value.num n
              | Option.none => Value.pyNone) :=
  claim_C6_status_translation acceptStore
    [("prefix", Value.str "10.0.0.0/24"), ("status", Value.str "Reserved")]
    (mainRun acceptStore
      [("prefix", Value.str "10.0.0.0/24"), ("status", Value.str "Reserved")]
      "present").1
    (mainRun acceptStore
      [("prefix", Value.str "10.0.0.0/24"), ("status", Value.str "Reserved")]
      "present").2
    [("prefix", Value.str "10.0.0.0/24"), ("status", Value.num 2)]
    "Reserved" rfl (by rfl) rfl (by decide)

/-! ### Resolution errors never reach a write (C3) -/

/-- Did a `FindRes` succeed? -/
def isOkRes : FindRes → Bool
  | FindRes.ok _ => true
  | FindRes.raised _ => false
  | FindRes.retErr _ => false

/-- The create path's resolution pipeline reported an error (raised, or
returned an exception object — which the caller's `data.get("failed")`
then crashes on). -/
def resolutionErredCreate (s : Store) (data : Record) : Bool :=
  !(isOkRes (createPrelude s.q data))

/-- The delete path's resolution reported an error: it only resolves when
the normalized record carries a truthy `vrf`. -/
def resolutionErredDelete (s : Store) (data : Record) : Bool :=
  match normalize_data data with
  | Except.error _ => false
  | Except.ok nd => pyTruthy (alookup nd "vrf") && !(isOkRes (find_ids s.q nd))

theorem create_no_write_of_err (s : Store) (data : Record) (ro : RunOut) (s2 : Store)
    (hcp : netbox_create_prefix s data = (ro, s2))
    (herr : resolutionErredCreate s data = true) :
    s2.createLog = s.createLog ∧ s2.deleteLog = s.deleteLog := by
  unfold netbox_create_prefix at hcp
  repeat' split at hcp
  all_goals cases hcp
  all_goals simp_all [resolutionErredCreate, isOkRes, logProbe]

theorem delete_no_write_of_err (s : Store) (data : Record) (ro : RunOut) (s2 : Store)
    (hdp : netbox_delete_prefix s data = (ro, s2))
    (herr : resolutionErredDelete s data = true) :
    s2.createLog = s.createLog ∧ s2.deleteLog = s.deleteLog := by
  unfold netbox_delete_prefix at hdp
  repeat' split at hdp
  all_goals cases hdp
  all_goals simp_all [resolutionErredDelete, isOkRes, logProbe]

/-- C3: when reference resolution reports an error the reconciler issues
no create and no delete call — on either path (`present` or `absent`) the
ghost create and delete logs come back unchanged, because the error
aborts the run (as an escaping exception) before any write. -/
theorem claim_C3_no_write_on_resolution_error (s : Store) (data : Record) (st : String)
    (h : (if strContainsSub st "present" then resolutionErredCreate s data
          else resolutionErredDelete s data) = true) :
    (mainRun s data st).2.createLog = s.createLog
      ∧ (mainRun s data st).2.deleteLog = s.deleteLog := by
  unfold mainRun
  cases hp : strContainsSub st "present" with
  | true =>
    rw [if_pos hp] at h
    rcases hcp : netbox_create_prefix s data with ⟨ro, s2⟩
    have key := create_no_write_of_err s data ro s2 hcp h
    cases ro <;> simp [hp, hcp, key.1, key.2]
  | false =>
    rw [if_neg (by simp [hp])] at h
    rcases hdp : netbox_delete_prefix s data with ⟨ro, s2⟩
    have key := delete_no_write_of_err s data ro s2 hdp h
    cases ro <;> simp [hp, hdp, key.1, key.2]

/-- A store whose every query reports multiple matches, driving the
resolver into its ambiguity errors. -/
def multiStore : Store :=
  { q := fun _ _ _ => QueryResult.multiple, prefixes := [],
    createResp := fun _ => CreateOutcome.rejected [] }

/-- Witness for C3: a record whose `vrf` reference resolves ambiguously
makes `find_ids` return an error object, and the reconciliation issues no
create and no delete. -/
theorem claim_C3_witness :
    (mainRun multiStore [("prefix", Value.str "10.0.0.0/24"), ("vrf", Value.str "blue")]
        "present").2.createLog = multiStore.createLog
      ∧ (mainRun multiStore
          [("prefix", Value.str "10.0.0.0/24"), ("vrf", Value.str "blue")]
          "present").2.deleteLog = multiStore.deleteLog :=
  claim_C3_no_write_on_resolution_error multiStore
    [("prefix", Value.str "10.0.0.0/24"), ("vrf", Value.str "blue")] "present" (by rfl)

/-! ### VRF scoping of the existence probe (C5) -/

/-- C5 (amended): the reconciler's existence probe is scoped by the
record's VRF.  On both paths, a record with a truthy `vrf` first runs
resolution and then probes scoped by `vrf_id` equal to whatever the
resolved record holds under `vrf` (the resolved numeric id when the VRF
exists; the original, unresolved value when it does not — no VRF-not-found
error is raised, see the counterexample); a record without a VRF probes
scoped to `vrf="null"`. -/
theorem claim_C5_probe_scope :
    (∀ (s : Store) (data : Record) (p network mask : String)
       (restParts : List String) (d : Record) (w : Value),
      alookup data "prefix" = some (Value.str p) →
      pySplit p '/' = network :: mask :: restParts →
      pyTruthy (alookup data "vrf") = true →
      createPrelude s.q data = FindRes.ok d →
      pyTruthy (alookup d "failed") = false →
      alookup d "vrf" = some w →
      ( netbox_create_prefix s data).2.probeLog
        = s.probeLog ++ [(network, mask, ("vrf_id", w))])
    ∧ (∀ (s : Store) (data : Record) (p network mask : String)
        (restParts : List String),
      alookup data "prefix" = some (Value.str p) →
      pySplit p '/' = network :: mask :: restParts →
      pyTruthy (alookup data "vrf") = false →
      ( netbox_create_prefix s data).2.probeLog
        = s.probeLog ++ [(network, mask, ("vrf", Value.str "null"))])
    ∧ (∀ (s : Store) (data nd : Record) (p network mask : String)
        (restParts : List String) (d : Record) (w : Value),
      normalize_data data = Except.ok nd →
      alookup nd "prefix" = some (Value.str p) →
      pySplit p '/' = network :: mask :: restParts →
      pyTruthy (alookup nd "vrf") = true →
      find_ids s.q nd = FindRes.ok d →
      alookup d "vrf" = some w →
      ( netbox_delete_prefix s data).2.probeLog
        = s.probeLog ++ [(network, mask, ("vrf_id", w))])
    ∧ (∀ (s : Store) (data nd : Record) (p network mask : String)
        (restParts : List String),
      normalize_data data = Except.ok nd →
      alookup nd "prefix" = some (Value.str p) →
      pySplit p '/' = network :: mask :: restParts →
      pyTruthy (alookup nd "vrf") = false →
      ( netbox_delete_prefix s data).2.probeLog
        = s.probeLog ++ [(network, mask, ("vrf", Value.str "null"))]) := by
  refine ⟨?_, ?_, ?_, ?_⟩
  · intro s data p network mask restParts d w hp hsplit hvrf hpre hfail hdv
    unfold netbox_create_prefix
    simp only [recItem, hp, hsplit, hvrf, hpre, hfail, hdv]
    cases hpr : probeResult s.prefixes network mask ("vrf_id", w) with
    | many => simp [logProbe]
    | nothing => cases hcr : s.createResp d <;> simp [hcr, logProbe]
    | one o =>
      cases hrp : alookup d "prefix" with
      | some pw => simp [hrp, logProbe]
      | none => simp [hrp, logProbe]
  · intro s data p network mask restParts hp hsplit hvrf
    unfold netbox_create_prefix
    simp only [recItem, hp, hsplit, hvrf]
    cases hpr : probeResult s.prefixes network mask ("vrf", Value.str "null") with
    | many => simp [logProbe]
    | nothing =>
      cases hpre : createPrelude s.q data with
      | raised e => simp [logProbe]
      | retErr e => simp [logProbe]
      | ok d =>
        cases hfail : pyTruthy (alookup d "failed") with
        | true => simp [hfail, logProbe]
        | false => cases hcr : s.createResp d <;> simp [hcr, hfail, logProbe]
    | one o =>
      cases hrp : alookup data "prefix" with
      | some pw => simp [hrp, logProbe]
      | none => simp [hrp, logProbe]
  · intro s data nd p network mask restParts d w hnorm hp hsplit hvrf hfind hdv
    unfold netbox_delete_prefix
    simp only [recItem, hnorm, hp, hsplit, hvrf, hfind, hdv]
    cases hpr : probeResult s.prefixes network mask ("vrf_id", w) <;> simp [logProbe]
  · intro s data nd p network mask restParts hnorm hp hsplit hvrf
    unfold netbox_delete_prefix
    simp only [recItem, hnorm, hp, hsplit, hvrf]
    cases hpr : probeResult s.prefixes network mask ("vrf", Value.str "null") <;>
      simp [logProbe]

/-- A remote object carrying a VRF id, accepted by `ghostStore` below. -/
def ghostObj : PrefixObj :=
  { id := 2, network := "10.0.0.0", mask := "24", vrf := some 9, ser := [("id", "2")] }

/-- A store that knows no VRFs yet accepts every create call. -/
def ghostStore : Store :=
  { q := qNoneFn, prefixes := [], createResp := fun _ => CreateOutcome.created ghostObj }

/-- Counterexample for C5 as stated: the VRF "ghost" does not resolve, yet
the reconciliation does *not* fail with a VRF-not-found error — it runs to
a successful create (changed true) whose payload still carries the
unresolved string under `vrf`. -/
theorem claim_C5_counterexample :
    (mainRun ghostStore
        [("prefix", Value.str "10.0.0.0/24"), ("vrf", Value.str "ghost")]
        "present").1
      = some (true, [("success", Value.vdict ghostObj.ser)])
      ∧ (mainRun ghostStore
          [("prefix", Value.str "10.0.0.0/24"), ("vrf", Value.str "ghost")]
          "present").2.createLog
        = [[("prefix", Value.str "10.0.0.0/24"), ("vrf", Value.str "ghost")]] := by
  constructor
  · rfl
  · rfl

/-- A store that resolves every VRF name to id 7 and finds nothing else. -/
def vrf7Store : Store :=
  { q := fun _ ep _ => if ep == "vrfs" then QueryResult.found 7 else QueryResult.notFound,
    prefixes := [], createResp := fun _ => CreateOutcome.created sampleObj }

/-- Witness for C5: a record with VRF "blue" resolving to id 7 probes the
prefixes collection scoped by `vrf_id` 7. -/
theorem claim_C5_witness :
    ( netbox_create_prefix vrf7Store
        [("prefix", Value.str "10.0.0.0/24"), ("vrf", Value.str "blue")]).2.probeLog
      = vrf7Store.probeLog ++ [("10.0.0.0", "24", ("vrf_id", Value.num 7))] :=
  claim_C5_probe_scope.1 vrf7Store
    [("prefix", Value.str "10.0.0.0/24"), ("vrf", Value.str "blue")]
    "10.0.0.0/24" "10.0.0.0" "24" []
    [("prefix", Value.str "10.0.0.0/24"), ("vrf", Value.num 7)]
    (Value.num 7) rfl (by rfl) rfl (by rfl) rfl rfl

/-! ### Multi-match probes (C4) -/

/-- C4 (amended): a multi-match existence probe always yields a failed,
non-changed outcome with no write (only the probe itself is logged; the
create/delete logs and the collection are untouched) — but the message
advises the caller to specify a VRF only on the *unscoped* probes; the
VRF-scoped probes report the bare "Returned more than one result". -/
theorem claim_C4_ambiguous_probe :
    (∀ (s : Store) (data : Record) (p network mask : String)
       (restParts : List String),
      alookup data "prefix" = some (Value.str p) →
      pySplit p '/' = network :: mask :: restParts →
      pyTruthy (alookup data "vrf") = false →
      probeResult s.prefixes network mask ("vrf", Value.str "null") = ProbeRes.many →
      mainRun s data "present"
        = (some (false,
            [("failed", Value.str "Returned more than one result. Try specifying VRF.")]),
           logProbe s network mask ("vrf", Value.str "null")))
    ∧ (∀ (s : Store) (data : Record) (p network mask : String)
        (restParts : List String) (d : Record) (w : Value),
      alookup data "prefix" = some (Value.str p) →
      pySplit p '/' = network :: mask :: restParts →
      pyTruthy (alookup data "vrf") = true →
      createPrelude s.q data = FindRes.ok d →
      pyTruthy (alookup d "failed") = false →
      alookup d "vrf" = some w →
      probeResult s.prefixes network mask ("vrf_id", w) = ProbeRes.many →
      mainRun s data "present"
        = (some (false, [("failed", Value.str "Returned more than one result")]),
           logProbe s network mask ("vrf_id", w)))
    ∧ (∀ (s : Store) (data nd : Record) (p network mask : String)
        (restParts : List String),
      normalize_data data = Except.ok nd →
      alookup nd "prefix" = some (Value.str p) →
      pySplit p '/' = network :: mask :: restParts →
      pyTruthy (alookup nd "vrf") = false →
      probeResult s.prefixes network mask ("vrf", Value.str "null") = ProbeRes.many →
      mainRun s data "absent"
        = (some (false,
            [("failed", Value.str "Returned more than one result. Try specifying VRF")]),
           logProbe s network mask ("vrf", Value.str "null")))
    ∧ (∀ (s : Store) (data nd : Record) (p network mask : String)
        (restParts : List String) (d : Record) (w : Value),
      normalize_data data = Except.ok nd →
      alookup nd "prefix" = some (Value.str p) →
      pySplit p '/' = network :: mask :: restParts →
      pyTruthy (alookup nd "vrf") = true →
      find_ids s.q nd = FindRes.ok d →
      alookup d "vrf" = some w →
      probeResult s.prefixes network mask ("vrf_id", w) = ProbeRes.many →
      mainRun s data "absent"
        = (some (false, [("failed", Value.str "Returned more than one result")]),
           logProbe s network mask ("vrf_id", w))) := by
  refine ⟨?_, ?_, ?_, ?_⟩
  · intro s data p network mask restParts hp hsplit hvrf hmany
    have hpres : strContainsSub "present" "present" = true := by decide
    unfold mainRun netbox_create_prefix
    simp only [hpres, if_pos, recItem, hp, hsplit, hvrf, hmany]
    rfl
  · intro s data p network mask restParts d w hp hsplit hvrf hpre hfail hdv hmany
    have hpres : strContainsSub "present" "present" = true := by decide
    unfold mainRun netbox_create_prefix
    simp only [hpres, if_pos, recItem, hp, hsplit, hvrf, hpre, hfail, hdv, hmany]
    rfl
  · intro s data nd p network mask restParts hnorm hp hsplit hvrf hmany
    have habs : strContainsSub "absent" "present" = false := by decide
    unfold mainRun netbox_delete_prefix
    simp only [habs, recItem, hnorm, hp, hsplit, hvrf, hmany]
    rfl
  · intro s data nd p network mask restParts d w hnorm hp hsplit hvrf hfind hdv hmany
    have habs : strContainsSub "absent" "present" = false := by decide
    unfold mainRun netbox_delete_prefix
    simp only [habs, recItem, hnorm, hp, hsplit, hvrf, hfind, hdv, hmany]
    rfl

/-- Two prefix objects sharing network, mask and VRF id 7. -/
def ambObjA : PrefixObj :=
  { id := 11, network := "10.0.0.0", mask := "24", vrf := some 7, ser := [] }

def ambObjB : PrefixObj :=
  { id := 12, network := "10.0.0.0", mask := "24", vrf := some 7, ser := [] }

/-- A store holding two identically scoped prefixes, resolving every VRF
name to id 7. -/
def ambStore : Store :=
  { q := fun _ ep _ => if ep == "vrfs" then QueryResult.found 7 else QueryResult.notFound,
    prefixes := [ambObjA, ambObjB],
    createResp := fun _ => CreateOutcome.rejected [] }

/-- Counterexample for C4 as stated: a VRF-scoped reconciliation whose
probe matches two objects fails with the bare message "Returned more than
one result", which does not tell the caller to specify a VRF (the record
already carries one). -/
theorem claim_C4_counterexample :
    (mainRun ambStore [("prefix", Value.str "10.0.0.0/24"), ("vrf", Value.str "blue")]
        "present").1
      = some (false, [("failed", Value.str "Returned more than one result")])
      ∧ strContainsSub "Returned more than one result" "VRF" = false := by
  constructor
  · rfl
  · decide

/-- Two VRF-less prefix objects sharing network and mask. -/
def ambObjC : PrefixObj :=
  { id := 13, network := "10.0.0.0", mask := "24", vrf := Option.none, ser := [] }

def ambObjD : PrefixObj :=
  { id := 14, network := "10.0.0.0", mask := "24", vrf := Option.none, ser := [] }

/-- A store holding two identical VRF-less prefixes. -/
def ambNullStore : Store :=
  { q := qNoneFn, prefixes := [ambObjC, ambObjD],
    createResp := fun _ => CreateOutcome.rejected [] }

/-- Witness for C4: an unscoped probe over two VRF-less matches fails
non-changed with the "Try specifying VRF." advice, logging only the probe. -/
theorem claim_C4_witness :
    mainRun ambNullStore [("prefix", Value.str "10.0.0.0/24")] "present"
      = (some (false,
          [("failed", Value.str "Returned more than one result. Try specifying VRF.")]),
         logProbe ambNullStore "10.0.0.0" "24" ("vrf", Value.str "null")) :=
  claim_C4_ambiguous_probe.1 ambNullStore [("prefix", Value.str "10.0.0.0/24")]
    "10.0.0.0/24" "10.0.0.0" "24" [] rfl (by rfl) rfl (by rfl)

/-! ### Present-twice idempotence (C2) -/

/-- C2 (amended): reconciling a `present` record twice — under a server
that accepts the create with an object matching the probed scope — yields
`changed: true` with the serialized created object first, and
`changed: false` second; on the second call the existence probe finds the
object (only a probe is logged), no create call is issued (the create log
and the collection are unchanged), and the outcome is the message
"<prefix> already exists in Netbox" under `failed` — the serialized
existing object is *not* returned (see the counterexample). -/
theorem claim_C2_present_twice (s0 : Store) (data : Record)
    (p network mask : String) (restParts : List String)
    (d : Record) (obj : PrefixObj) (sc : String × Value)
    (hp : alookup data "prefix" = some (Value.str p))
    (hsplit : pySplit p '/' = network :: mask :: restParts)
    (hpre : createPrelude s0.q data = FindRes.ok d)
    (hfail : pyTruthy (alookup d "failed") = false)
    (hdp : alookup d "prefix" = some (Value.str p))
    (hsc : (if pyTruthy (alookup data "vrf")
            then (alookup d "vrf").map (fun w => ("vrf_id", w))
            else some ("vrf", Value.str "null")) = some sc)
    (hfilter : s0.prefixes.filter (probeMatch network mask sc) = [])
    (hcr : s0.createResp d = CreateOutcome.created obj)
    (hser : obj.ser ≠ [])
    (hmatch : probeMatch network mask sc obj = true) :
    mainRun s0 data "present"
      = (some (true, [("success", Value.vdict obj.ser)]),
         { s0 with prefixes := s0.prefixes ++ [obj],
                   probeLog := s0.probeLog ++ [(network, mask, sc)],
                   createLog := s0.createLog ++ [d] })
    ∧ mainRun { s0 with prefixes := s0.prefixes ++ [obj],
                        probeLog := s0.probeLog ++ [(network, mask, sc)],
                        createLog := s0.createLog ++ [d] } data "present"
      = (some (false, [("failed", Value.str (p ++ " already exists in Netbox"))]),
         { s0 with prefixes := s0.prefixes ++ [obj],
                   probeLog := (s0.probeLog ++ [(network, mask, sc)])
                                 ++ [(network, mask, sc)],
                   createLog := s0.createLog ++ [d] }) := by
  have hpres : strContainsSub "present" "present" = true := by decide
  have hprobe0 : probeResult s0.prefixes network mask sc = ProbeRes.nothing := by
    unfold probeResult
    rw [hfilter]
  have hprobe1 : probeResult (s0.prefixes ++ [obj]) network mask sc = ProbeRes.one obj := by
    unfold probeResult
    rw [List.filter_append, hfilter]
    simp [List.filter, hmatch]
  have hsucc : pyTruthy (alookup [("success", Value.vdict obj.ser)] "success") = true := by
    simp [alookup, pyTruthy, hser]
  cases hvrf : pyTruthy (alookup data "vrf") with
  | true =>
    rw [hvrf] at hsc
    cases hdw : alookup d "vrf" with
    | none =>
      rw [hdw] at hsc
      simp at hsc
    | some w =>
      rw [hdw] at hsc
      simp only [Option.map_some, if_pos] at hsc
      have hscw : sc = ("vrf_id", w) := by
        cases hsc
        rfl
      subst hscw
      constructor
      · unfold mainRun netbox_create_prefix
        simp only [hpres, if_pos, recItem, hp, hsplit, hvrf, hpre, hfail, hdw,
                   hprobe0, hcr, hsucc, logProbe]
        simp [hsucc]
      · unfold mainRun netbox_create_prefix
        dsimp only
        simp only [hpres, if_pos, recItem, hp, hsplit, hvrf, hpre, hfail, hdw,
                   hprobe1, hdp, logProbe]
        rfl
  | false =>
    rw [hvrf] at hsc
    rw [if_neg (by decide)] at hsc
    have hscn : sc = ("vrf", Value.str "null") := by
      cases hsc
      rfl
    subst hscn
    constructor
    · unfold mainRun netbox_create_prefix
      simp only [hpres, if_pos, recItem, hp, hsplit, hvrf, hprobe0, hpre, hfail,
                 hcr, hsucc, logProbe]
      simp [hsucc]
    · unfold mainRun netbox_create_prefix
      dsimp only
      simp only [hpres, if_pos, recItem, hp, hsplit, hvrf, hprobe1, logProbe]
      rfl

/-- Counterexample for C2 as stated: on the second reconciliation of the
same `present` record the outcome does *not* carry the serialized existing
object — it is exactly the failed "already exists" message, with no
`success`/resource entry (while the first call did change the store). -/
theorem claim_C2_counterexample :
    (mainRun acceptStore [("prefix", Value.str "10.0.0.0/24")] "present").1
      = some (true, [("success", Value.vdict sampleObj.ser)])
      ∧ (mainRun (mainRun acceptStore [("prefix", Value.str "10.0.0.0/24")] "present").2
          [("prefix", Value.str "10.0.0.0/24")] "present").1
        = some (false, [("failed", Value.str "10.0.0.0/24 already exists in Netbox")])
      ∧ alookup [("failed", Value.str "10.0.0.0/24 already exists in Netbox")] "success"
        = Option.none := by
  refine ⟨rfl, rfl, rfl⟩

/-- Witness for C2: the concrete `10.0.0.0/24` record against the
accepting store runs changed-true then changed-false with no second
create. -/
theorem claim_C2_witness :
    mainRun acceptStore [("prefix", Value.str "10.0.0.0/24")] "present"
      = (some (true, [("success", Value.vdict sampleObj.ser)]),
         { acceptStore with
             prefixes := acceptStore.prefixes ++ [sampleObj],
             probeLog := acceptStore.probeLog
               ++ [("10.0.0.0", "24", ("vrf", Value.str "null"))],
             createLog := acceptStore.createLog
               ++ [[("prefix", Value.str "10.0.0.0/24")]] })
    ∧ mainRun
        { acceptStore with
            prefixes := acceptStore.prefixes ++ [sampleObj],
            probeLog := acceptStore.probeLog
              ++ [("10.0.0.0", "24", ("vrf", Value.str "null"))],
            createLog := acceptStore.createLog
              ++ [[("prefix", Value.str "10.0.0.0/24")]] }
        [("prefix", Value.str "10.0.0.0/24")] "present"
      = (some (false,
          [("failed", Value.str ("10.0.0.0/24" ++ " already exists in Netbox"))]),
         { acceptStore with
             prefixes := acceptStore.prefixes ++ [sampleObj],
             probeLog := (acceptStore.probeLog
               ++ [("10.0.0.0", "24", ("vrf", Value.str "null"))])
               ++ [("10.0.0.0", "24", ("vrf", Value.str "null"))],
             createLog := acceptStore.createLog
               ++ [[("prefix", Value.str "10.0.0.0/24")]] }) :=
  claim_C2_present_twice acceptStore [("prefix", Value.str "10.0.0.0/24")]
    "10.0.0.0/24" "10.0.0.0" "24" [] [("prefix", Value.str "10.0.0.0/24")]
    sampleObj ("vrf", Value.str "null")
    rfl (by rfl) (by rfl) rfl rfl (by rfl) rfl rfl (by decide) (by decide)
